import Mathlib

/-!
Shallow embedding of the Subscription_api repository core:
the Subscription entity lifecycle (mongoose pre-save hook and schema
validators in models/user.model.js), the auth controllers (signup /
signin in controllers/auth.controller.js), the user profile controller
(controllers/user.controller.js) and the authorize middleware.

Conventions of the embedding:
* instants (JS `Date` values) are `Int` milliseconds since the Unix
  epoch; adding n calendar days is adding `n * msPerDay`
  (the JS code runs `setDate(getDate() + n)`);
* an unset / `undefined` field is `Option.none`; JS truthiness of a
  string (`!token`) treats both `undefined` and `""` as missing;
* the document store is a `List UserRec`; `findOne` / `findById` are
  `List.find?`; a mongoose save either commits (the list grows) or the
  transaction aborts (the list is returned unchanged);
* collaborators that the controllers call (bcrypt hash/compare, jwt
  sign/verify) are passed in as function parameters, fallible ones
  returning `Except`.
-/

namespace SubApi

/-- Milliseconds in one calendar day (no DST modelled; server clock UTC). -/
def msPerDay : Int := 86400000

/-- Days since 1970-01-01 of the civil date y-m-d (proleptic Gregorian),
used only to state calendar examples such as 2024-01-15. -/
def daysFromCivil (y : Int) (m d : Nat) : Int :=
  let y2 : Int := if m ≤ 2 then y - 1 else y
  let era : Int := (if 0 ≤ y2 then y2 else y2 - 399) / 400
  let yoe : Int := y2 - era * 400
  let doy : Int := (153 * ((m : Int) + (if 2 < m then -3 else 9)) + 2) / 5 + (d : Int) - 1
  let doe : Int := yoe * 365 + yoe / 4 - yoe / 100 + doy
  era * 146097 + doe - 719468

/-- Epoch milliseconds of midnight UTC on the civil date y-m-d. -/
def civilMs (y : Int) (m d : Nat) : Int := daysFromCivil y m d * msPerDay

/-- `frequency` enum of the subscription schema. -/
inductive Frequency
  | daily | weekly | monthly | yearly
deriving DecidableEq, Repr

/-- `status` enum of the subscription schema. -/
inductive SubStatus
  | active | inactive | cancelled
deriving DecidableEq, Repr

/-- `category` enum of the subscription schema. -/
inductive Category
  | food | entertainment | shopping | health | education | other
deriving DecidableEq, Repr

/-- A subscription document. `renewalDate` is not a schema path in the
source; the pre-save hook sets it on the in-memory document, so it is
`Option Int` here, `none` when unset. `user` is the owning ObjectId. -/
structure Subscription where
  name : String
  price : Int
  currency : String
  frequency : Frequency
  category : Category
  paymentMethod : String
  status : SubStatus
  startDate : Int
  endDate : Int
  renewalDate : Option Int
  user : Nat
deriving DecidableEq, Repr

/-- The `renewalPeriod` table of the pre-save hook, in days. -/
def renewalPeriod : Frequency → Int
  | .daily => 1
  | .weekly => 7
  | .monthly => 30
  | .yearly => 365

/-- The `subscriptionSchema.pre("save")` hook. Step 1: if `renewalDate`
is unset, set it to `startDate` plus the frequency's period in days.
Step 2 (no early return in the source, so it runs in the same pass):
if the — possibly just computed — renewal date is strictly before
`now`, force `status` to inactive. -/
def preSave (now : Int) (s : Subscription) : Subscription :=
  let s1 :=
    match s.renewalDate with
    | none => { s with renewalDate := some (s.startDate + renewalPeriod s.frequency * msPerDay) }
    | some _ => s
  match s1.renewalDate with
  | some r => if r < now then { s1 with status := SubStatus.inactive } else s1
  | none => s1

/-- The `currency` enum of the schema. The source list repeats the block
KWD, QAR, SAR, AED, BHD, OMR many times; duplicates do not change
membership, so each code is listed once, in first-occurrence order. -/
def currencyEnum : List String :=
  ["USD", "EUR", "GBP", "CAD", "AUD", "CHF", "JPY", "CNY", "INR", "BRL",
   "MXN", "ARS", "CLP", "COP", "PEN", "NZD", "HKD", "SGD", "THB", "MYR",
   "PHP", "IDR", "VND", "KRW", "TRY", "RUB", "ZAR", "SEK", "NOK", "DKK",
   "PLN", "CZK", "HUF", "RON", "BGN", "HRK", "ISK", "JOD", "KWD", "QAR",
   "SAR", "AED", "BHD", "OMR"]

/-- Dropping leading and trailing whitespace from a character list. -/
def trimChars (cs : List Char) : List Char :=
  ((cs.dropWhile Char.isWhitespace).reverse.dropWhile Char.isWhitespace).reverse

/-- The mongoose `trim: true` setter. -/
def strTrim (s : String) : String := String.mk (trimChars s.toList)

/-- The mongoose `lowercase: true` setter. -/
def strToLower (s : String) : String := String.mk (s.toList.map Char.toLower)

/-- The `startDate` validator: `value < this.endDate`, read off the
in-memory candidate document. -/
def startDateValid (s : Subscription) : Bool := decide (s.startDate < s.endDate)

/-- The `endDate` validator: `value > this.startDate`, read off the
in-memory candidate document. -/
def endDateValid (s : Subscription) : Bool := decide (s.endDate > s.startDate)

/-- Field-level validation messages of the subscription schema, in path
order; the list is empty exactly when the document is valid. String
fields are validated after their `trim` setter, as mongoose does. -/
def subscriptionErrors (s : Subscription) : List String :=
  (if (strTrim s.name).length < 3 then ["name must be at least 3 characters long"] else []) ++
  (if 20 < (strTrim s.name).length then ["name must be less than 20 characters long"] else []) ++
  (if s.price < 0 then ["price must be greater than 0"] else []) ++
  (if currencyEnum.contains s.currency then [] else ["currency is required"]) ++
  (if strTrim s.paymentMethod = "" then ["payment method is required"] else []) ++
  (if startDateValid s then [] else ["start date must be before end date"]) ++
  (if endDateValid s then [] else ["end date must be after start date"])

/-- Persisting a subscription: schema validation rejects with the
collected field messages (a ValidationError, not a crash); otherwise
the pre-save hook transforms the document and the write goes through. -/
def subSave (now : Int) (s : Subscription) : Except (List String) Subscription :=
  if subscriptionErrors s = [] then Except.ok (preSave now s)
  else Except.error (subscriptionErrors s)

/-- A stored User document: `id` is the ObjectId, `password` holds what
signup stored there (the bcrypt hash). -/
structure UserRec where
  id : Nat
  name : String
  email : String
  password : String
deriving DecidableEq, Repr

/-- A user as loaded with `.select("-password")`: the password path is
excluded, so the type has no password field at all. -/
structure PublicUser where
  id : Nat
  name : String
  email : String
deriving DecidableEq, Repr

/-- Loading a stored user with the password path excluded. -/
def toPublic (u : UserRec) : PublicUser :=
  { id := u.id, name := u.name, email := u.email }

/-- Characters of the class [A-Za-z\d@$!%*?&] of the password regex. -/
def passwordClassChar (c : Char) : Bool :=
  c.isLower || c.isUpper || c.isDigit || ['@', '$', '!', '%', '*', '?', '&'].contains c

/-- One of [@$!%*?&], the special characters the password regex demands. -/
def specialChar (c : Char) : Bool :=
  ['@', '$', '!', '%', '*', '?', '&'].contains c

/-- The userSchema password regex
^(?=.*[a-z])(?=.*[A-Z])(?=.*\d)(?=.*[@$!%*?&])[A-Za-z\d@$!%*?&]\x7b8,\x7d$ :
at least 8 characters, all from the class, with at least one lowercase,
one uppercase, one digit and one special. -/
def passwordRegexMatch (s : String) : Bool :=
  let cs := s.toList
  8 ≤ cs.length &&
  cs.all passwordClassChar &&
  cs.any Char.isLower &&
  cs.any Char.isUpper &&
  cs.any Char.isDigit &&
  cs.any specialChar

/-- The userSchema email regex ^\S+@\S+\.\S+$ : no whitespace anywhere,
and the string splits as A ++ "@" ++ B ++ "." ++ C with A, B, C
non-empty (positions i and j below are the chosen '@' and '.'). -/
def emailRegexMatch (s : String) : Bool :=
  let cs := s.toList
  cs.all (fun c => !c.isWhitespace) &&
  (List.range cs.length).any (fun i =>
    (List.range cs.length).any (fun j =>
      1 ≤ i && i + 2 ≤ j && j + 2 ≤ cs.length &&
      cs.getD i ' ' == '@' && cs.getD j ' ' == '.'))

/-- Field-level validation messages of the userSchema, in path order,
evaluated on the stored values (setters such as trim and lowercase have
already been applied by the time mongoose validates). Note the password
regex runs on whatever the `password` path holds. -/
def userErrors (u : UserRec) : List String :=
  (if u.name = "" then ["username is required"] else []) ++
  (if u.name ≠ "" ∧ u.name.length < 3 then ["username must be at least 3 characters long"] else []) ++
  (if 20 < u.name.length then ["username must be less than 20 characters long"] else []) ++
  (if u.email = "" then ["email is required"] else []) ++
  (if emailRegexMatch u.email then [] else ["invalid email address"]) ++
  (if u.password = "" then ["password is required"] else []) ++
  (if passwordRegexMatch u.password then [] else ["invalid password"])

/-- Outcome of the signup controller. `conflict` is the 400
"User already exists" response; `created` is the 201 response, whose
body carries the created user document (`newUsers[0]`, a full `UserRec`)
and the jwt; `forwardedError` is the catch path: the transaction was
aborted and the error passed to `next`. -/
inductive SignupOutcome
  | conflict
  | created (user : UserRec) (token : String)
  | forwardedError (msgs : List String)
deriving DecidableEq, Repr

/-- The signup controller: look up the email; if a user exists, answer
400 and stop. Otherwise hash the password, build the candidate through
the schema setters (trim, lowercase) and save it inside the
transaction: a validation failure aborts (store unchanged) and forwards
the error; success commits the new record and answers 201 with the
created document and a token signed over its id. -/
def signup (hash : String → String) (sign : Nat → String) (nextId : Nat)
    (store : List UserRec) (name email password : String) :
    SignupOutcome × List UserRec :=
  match store.find? (fun u => u.email == email) with
  | some _ => (SignupOutcome.conflict, store)
  | none =>
    let candidate : UserRec :=
      { id := nextId, name := strTrim name, email := strToLower (strTrim email),
        password := hash password }
    match userErrors candidate with
    | [] => (SignupOutcome.created candidate (sign nextId), store ++ [candidate])
    | errs => (SignupOutcome.forwardedError errs, store)

/-- A response the signin controller may send. -/
inductive SigninResponse
  | badRequest (message : String)
  | okSignedIn (user : UserRec) (token : String)
deriving DecidableEq, Repr

/-- What a signin request ends in: the response sent (or `none` if no
response was ever produced), whether an error was passed to `next`, and
whether the transaction was aborted. -/
structure SigninState where
  response : Option SigninResponse
  errorForwarded : Bool
  transactionAborted : Bool
deriving DecidableEq, Repr

/-- The signin controller. `compare` is bcrypt.compare and may throw
(`Except.error`). Unknown email → 400 "User not found"; wrong password
→ 400 "Invalid password"; success → 200 with user and token. The catch
block only runs `session.abortTransaction()`: it neither forwards the
error to `next` nor sends any response. -/
def signin (compare : String → String → Except String Bool) (sign : Nat → String)
    (store : List UserRec) (email password : String) : SigninState :=
  match store.find? (fun u => u.email == email) with
  | none =>
    { response := some (SigninResponse.badRequest "User not found"),
      errorForwarded := false, transactionAborted := false }
  | some user =>
    match compare password user.password with
    | Except.error _ =>
      { response := none, errorForwarded := false, transactionAborted := true }
    | Except.ok false =>
      { response := some (SigninResponse.badRequest "Invalid password"),
        errorForwarded := false, transactionAborted := false }
    | Except.ok true =>
      { response := some (SigninResponse.okSignedIn user (sign user.id)),
        errorForwarded := false, transactionAborted := false }

/-- The jwt payload: `{ userId }`. -/
structure TokenClaims where
  userId : Nat
deriving DecidableEq, Repr

/-- Outcome of the authorize middleware: the 401 "Unauthorized"
response, the catch path forwarding a verification error to `next`, or
success attaching the password-excluded user to `req.user`. -/
inductive AuthOutcome
  | unauthorizedResp
  | forwardedError (e : String)
  | proceed (u : PublicUser)
deriving DecidableEq, Repr

/-- JS String.prototype.startsWith, character-wise. -/
def jsStartsWith (s p : String) : Bool :=
  p.toList.isPrefixOf s.toList

/-- Splitting step of JS String.prototype.split(" "): cut the character
list at every space, keeping empty chunks, `acc` holding the current
chunk reversed. -/
def splitSpacesAux : List Char → List Char → List String
  | [], acc => [String.mk acc.reverse]
  | c :: rest, acc =>
    if c = ' ' then String.mk acc.reverse :: splitSpacesAux rest []
    else splitSpacesAux rest (c :: acc)

/-- JS `s.split(" ")`. -/
def jsSplitSpace (s : String) : List String :=
  splitSpacesAux s.toList []

/-- Token extraction of the authorize middleware: when the header is
present and starts with "Bearer", the token is
`authorization.split(" ")[1]` (which may itself be undefined, e.g. for
the bare header "Bearer"); otherwise the token stays undefined. -/
def extractToken (authHeader : Option String) : Option String :=
  match authHeader with
  | some h => if jsStartsWith h "Bearer" then (jsSplitSpace h).get? 1 else none
  | none => none

/-- The authorize middleware. `if(!token)` rejects both an undefined
token and the empty string with 401. `verify` is jwt.verify and may
throw, which the catch forwards to `next`. A verified token whose
userId matches no stored user is 401; otherwise the user, loaded with
`.select("-password")`, is attached to `req.user` and the request
proceeds. -/
def authorize (verify : String → Except String TokenClaims) (store : List UserRec)
    (authHeader : Option String) : AuthOutcome :=
  match extractToken authHeader with
  | none => AuthOutcome.unauthorizedResp
  | some t =>
    if t == "" then AuthOutcome.unauthorizedResp
    else
      match verify t with
      | Except.error e => AuthOutcome.forwardedError e
      | Except.ok claims =>
        match store.find? (fun u => u.id == claims.userId) with
        | none => AuthOutcome.unauthorizedResp
        | some u => AuthOutcome.proceed (toPublic u)

/-- Outcome of the getUserProfile controller: 401 when no authenticated
user is on the request, 404 when the id matches no stored user, or 200
whose `data.user` is the document as `User.findById` returned it — the
full `UserRec`, password path included (no `.select("-password")`). -/
inductive ProfileOutcome
  | authRequired
  | notFound
  | okProfile (user : UserRec)
deriving DecidableEq, Repr

/-- The getUserProfile controller: check `req.user`, re-fetch the user
by `req.user.id` without excluding the password, 404 if gone, else
200 with the fetched document. -/
def getUserProfile (store : List UserRec) (reqUser : Option PublicUser) : ProfileOutcome :=
  match reqUser with
  | none => ProfileOutcome.authRequired
  | some pu =>
    match store.find? (fun u => u.id == pu.id) with
    | none => ProfileOutcome.notFound
    | some u => ProfileOutcome.okProfile u

/-! Concrete documents and collaborators used by the witnesses. -/

/-- Example subscription before its first persist: monthly, starting
2024-01-15, no renewal date yet. -/
def demoSub : Subscription :=
  { name := "Netflix", price := 10, currency := "USD",
    frequency := Frequency.monthly, category := Category.entertainment,
    paymentMethod := "card", status := SubStatus.active,
    startDate := civilMs 2024 1 15, endDate := civilMs 2025 1 15,
    renewalDate := none, user := 1 }

/-- The same subscription with a renewal date already stored. -/
def demoSubRenewed : Subscription :=
  { demoSub with renewalDate := some (civilMs 2030 1 1) }

/-- A subscription whose start date is not before its end date. -/
def demoSubBadDates : Subscription :=
  { demoSub with startDate := civilMs 2025 1 15, endDate := civilMs 2024 1 15 }

/-- A stored user. -/
def demoUser : UserRec :=
  { id := 1, name := "Alice", email := "alice@example.com", password := "Aa1!Aa1!" }

/-- A one-user store. -/
def demoStore : List UserRec := [demoUser]

/-- A hasher whose output happens to satisfy the password regex. -/
def demoHash : String → String := fun _ => "Aa1!Aa1!Aa1!"

/-- A hasher whose output is shaped like a real bcrypt digest: it
contains '.', a character outside the password regex class. -/
def demoHashDot : String → String := fun _ => "$2b$10$N9qo8uLO.ckgx2ZMRZoMye"

/-- A token signer. -/
def demoSign : Nat → String := fun n => "token" ++ toString n

/-- A comparer standing for a bcrypt.compare call that throws. -/
def demoCompareThrow : String → String → Except String Bool :=
  fun _ _ => Except.error "internal error"

/-- A verifier accepting every token as user 1. -/
def demoVerifyOk : String → Except String TokenClaims :=
  fun _ => Except.ok { userId := 1 }

/-- A verifier accepting every token as the nonexistent user 9. -/
def demoVerifyMissing : String → Except String TokenClaims :=
  fun _ => Except.ok { userId := 9 }

/-- A verifier that throws, as jwt.verify does on an expired token. -/
def demoVerifyFail : String → Except String TokenClaims :=
  fun _ => Except.error "jwt expired"

/-! Claims. -/

/-- Claim C1: for every subscription persisted with its renewal date
unset, the persist step sets the renewal date to startDate plus a
frequency-dependent offset in days — 1 for daily, 7 for weekly, 30 for
monthly, 365 for yearly; e.g. monthly from 2024-01-15 yields
2024-02-14. -/
theorem C1_renewalDate_assignment :
    (∀ (now : Int) (s : Subscription), s.renewalDate = none →
      (preSave now s).renewalDate =
        some (s.startDate + renewalPeriod s.frequency * msPerDay))
    ∧ renewalPeriod Frequency.daily = 1
    ∧ renewalPeriod Frequency.weekly = 7
    ∧ renewalPeriod Frequency.monthly = 30
    ∧ renewalPeriod Frequency.yearly = 365
    ∧ (∀ (now : Int) (s : Subscription), s.renewalDate = none →
        s.frequency = Frequency.monthly → s.startDate = civilMs 2024 1 15 →
        (preSave now s).renewalDate = some (civilMs 2024 2 14)) := by
  have hbase : ∀ (now : Int) (s : Subscription), s.renewalDate = none →
      (preSave now s).renewalDate =
        some (s.startDate + renewalPeriod s.frequency * msPerDay) := by
    intro now s h
    simp only [preSave, h]
    split <;> simp_all
  refine ⟨hbase, rfl, rfl, rfl, rfl, ?_⟩
  intro now s h hf hs
  rw [hbase now s h, hf, hs]
  decide

/-- Claim C1 witness: the example document gets renewal date
2024-02-14 = 2024-01-15 + 30 days. -/
theorem C1_renewalDate_assignment_witness :
    demoSub.renewalDate = none ∧
    (preSave 0 demoSub).renewalDate =
      some (demoSub.startDate + renewalPeriod demoSub.frequency * msPerDay) ∧
    (preSave 0 demoSub).renewalDate = some (civilMs 2024 2 14) :=
  ⟨rfl, C1_renewalDate_assignment.1 0 demoSub rfl,
   C1_renewalDate_assignment.2.2.2.2.2 0 demoSub rfl rfl rfl⟩

/-- Claim C2: for every subscription whose renewal date — whether just
computed in the same persist or already stored — is strictly earlier
than the current time at persist time, the persist step forces status
to "inactive", overriding any status the caller supplied; the claim is
stated over every document and persist instant, so it covers every
persist, not only the first. -/
theorem C2_status_forced_inactive :
    ∀ (now : Int) (s : Subscription) (r : Int),
      (preSave now s).renewalDate = some r → r < now →
      (preSave now s).status = SubStatus.inactive := by
  intro now s r hr hlt
  unfold preSave at hr ⊢
  cases h0 : s.renewalDate with
  | none =>
    simp only [h0] at hr ⊢
    split at hr <;> simp_all
  | some r0 =>
    simp only [h0] at hr ⊢
    split at hr <;> simp_all

/-- Claim C2 witness: persisting the example document on 2024-06-01,
after its computed renewal date 2024-02-14, forces it inactive even
though the caller supplied "active". -/
theorem C2_status_forced_inactive_witness :
    (preSave (civilMs 2024 6 1) demoSub).renewalDate = some (civilMs 2024 2 14) ∧
    civilMs 2024 2 14 < civilMs 2024 6 1 ∧
    demoSub.status = SubStatus.active ∧
    (preSave (civilMs 2024 6 1) demoSub).status = SubStatus.inactive :=
  ⟨by decide, by decide, rfl,
   C2_status_forced_inactive (civilMs 2024 6 1) demoSub (civilMs 2024 2 14)
     (by decide) (by decide)⟩

/-- Claim C3: for every subscription whose renewal date is already set,
persisting it again leaves the renewal date unchanged — the derivation
never overwrites an existing renewal date. -/
theorem C3_renewalDate_assign_once :
    ∀ (now : Int) (s : Subscription) (r : Int),
      s.renewalDate = some r → (preSave now s).renewalDate = some r := by
  intro now s r h
  simp only [preSave, h]
  split <;> simp_all

/-- Claim C3 witness: a stored renewal date of 2030-01-01 survives
another persist untouched. -/
theorem C3_renewalDate_assign_once_witness :
    demoSubRenewed.renewalDate = some (civilMs 2030 1 1) ∧
    (preSave (civilMs 2024 6 1) demoSubRenewed).renewalDate = some (civilMs 2030 1 1) :=
  ⟨rfl, C3_renewalDate_assign_once (civilMs 2024 6 1) demoSubRenewed
    (civilMs 2030 1 1) rfl⟩

/-- Claim C4: for every subscription candidate with startDate ≥
endDate, persistence is rejected with a field-level validation failure
(an error value, not a crash); both directions of the cross-field
invariant are validated independently against the in-memory candidate,
so both field messages are reported. -/
theorem C4_date_invariant_rejection :
    ∀ (now : Int) (s : Subscription), s.endDate ≤ s.startDate →
      startDateValid s = false ∧ endDateValid s = false ∧
      ∃ errs, subSave now s = Except.error errs ∧
        "start date must be before end date" ∈ errs ∧
        "end date must be after start date" ∈ errs := by
  intro now s h
  have h1 : startDateValid s = false := by
    simp only [startDateValid, decide_eq_false_iff_not]
    omega
  have h2 : endDateValid s = false := by
    simp only [endDateValid, gt_iff_lt, decide_eq_false_iff_not]
    omega
  have hmem1 : "start date must be before end date" ∈ subscriptionErrors s := by
    simp [subscriptionErrors, h1, h2]
  have hmem2 : "end date must be after start date" ∈ subscriptionErrors s := by
    simp [subscriptionErrors, h1, h2]
  have hne : subscriptionErrors s ≠ [] := by
    intro hh
    rw [hh] at hmem1
    exact absurd hmem1 (List.not_mem_nil _)
  refine ⟨h1, h2, subscriptionErrors s, ?_, hmem1, hmem2⟩
  simp [subSave, hne]

/-- Claim C4 witness: saving the document whose start date 2025-01-15
is after its end date 2024-01-15 is rejected with both messages. -/
theorem C4_date_invariant_rejection_witness :
    demoSubBadDates.endDate ≤ demoSubBadDates.startDate ∧
    (startDateValid demoSubBadDates = false ∧ endDateValid demoSubBadDates = false ∧
      ∃ errs, subSave 0 demoSubBadDates = Except.error errs ∧
        "start date must be before end date" ∈ errs ∧
        "end date must be after start date" ∈ errs) :=
  ⟨by decide, C4_date_invariant_rejection 0 demoSubBadDates (by decide)⟩

/-- Claim C5: for every registration attempt whose email already
belongs to a stored user, signup answers the duplicate-user error (the
400 "User already exists" response) and performs no further side
effects: the store is returned unchanged, so its record count is
unchanged. -/
theorem C5_signup_conflict_no_side_effects :
    ∀ (hash : String → String) (sign : Nat → String) (nextId : Nat)
      (store : List UserRec) (name email password : String) (u : UserRec),
      u ∈ store → u.email = email →
      (signup hash sign nextId store name email password).1 = SignupOutcome.conflict ∧
      (signup hash sign nextId store name email password).2 = store ∧
      (signup hash sign nextId store name email password).2.length = store.length := by
  intro hash sign nextId store name email password u hu he
  cases hf : store.find? (fun v => v.email == email) with
  | none =>
    have := List.find?_eq_none.mp hf u hu
    simp [he] at this
  | some w =>
    simp [signup, hf]

/-- Claim C5 witness: re-registering Alice's email fails with the
conflict response and leaves the one-user store intact. -/
theorem C5_signup_conflict_no_side_effects_witness :
    demoUser ∈ demoStore ∧ demoUser.email = "alice@example.com" ∧
    ((signup demoHash demoSign 2 demoStore "New User" "alice@example.com" "password123").1 =
        SignupOutcome.conflict ∧
      (signup demoHash demoSign 2 demoStore "New User" "alice@example.com" "password123").2 =
        demoStore ∧
      (signup demoHash demoSign 2 demoStore "New User" "alice@example.com" "password123").2.length =
        demoStore.length) :=
  ⟨by decide, rfl,
   C5_signup_conflict_no_side_effects demoHash demoSign 2 demoStore
     "New User" "alice@example.com" "password123" demoUser (by decide) rfl⟩

/-- Claim C6 is false on the code: the 201 response of a successful
registration carries the created document as `newUsers[0]` with no
projection, so the password (hash) field is present in the payload,
although the inline comment claims it is excluded. This theorem
evaluates signup at a concrete successful registration and exhibits the
hash inside the response user object. -/
theorem C6_signup_password_in_response :
    ∃ user token,
      (signup demoHash demoSign 2 demoStore "Test User" "test@example.com" "password123").1 =
        SignupOutcome.created user token ∧
      user.password = demoHash "password123" :=
  ⟨{ id := 2, name := "Test User", email := "test@example.com",
     password := demoHash "password123" },
   demoSign 2, by decide, rfl⟩

/-- Claim C7 is false on the code: when an internal error is thrown
during signin (here bcrypt.compare throwing), the catch block aborts
the transaction but forwards nothing to the error boundary and sends no
response. This theorem evaluates signin at such a failing request. -/
theorem C7_signin_error_not_forwarded :
    signin demoCompareThrow demoSign demoStore "alice@example.com" "password123" =
      { response := none, errorForwarded := false, transactionAborted := true } := by
  decide

/-- Claim C8: the Access Guard answers 401 when the Authorization
header is absent or lacks the "Bearer" prefix, and when the token
verifies but no user exists for the encoded id; a verification failure
is forwarded to the error boundary (and is not the 401 classification);
on success the resolved user, password excluded, is attached. -/
theorem C8_authorize_contract :
    (∀ (verify : String → Except String TokenClaims) (store : List UserRec),
      authorize verify store none = AuthOutcome.unauthorizedResp)
    ∧ (∀ (verify : String → Except String TokenClaims) (store : List UserRec) (h : String),
        jsStartsWith h "Bearer" = false →
        authorize verify store (some h) = AuthOutcome.unauthorizedResp)
    ∧ (∀ (verify : String → Except String TokenClaims) (store : List UserRec)
        (hd : Option String) (t e : String), extractToken hd = some t → t ≠ "" →
        verify t = Except.error e →
        authorize verify store hd = AuthOutcome.forwardedError e ∧
        AuthOutcome.forwardedError e ≠ AuthOutcome.unauthorizedResp)
    ∧ (∀ (verify : String → Except String TokenClaims) (store : List UserRec)
        (hd : Option String) (t : String) (claims : TokenClaims),
        extractToken hd = some t → t ≠ "" →
        verify t = Except.ok claims →
        store.find? (fun u => u.id == claims.userId) = none →
        authorize verify store hd = AuthOutcome.unauthorizedResp)
    ∧ (∀ (verify : String → Except String TokenClaims) (store : List UserRec)
        (hd : Option String) (t : String) (claims : TokenClaims) (u : UserRec),
        extractToken hd = some t → t ≠ "" →
        verify t = Except.ok claims →
        store.find? (fun u => u.id == claims.userId) = some u →
        authorize verify store hd = AuthOutcome.proceed (toPublic u)) := by
  refine ⟨?_, ?_, ?_, ?_, ?_⟩
  · intro verify store
    simp [authorize, extractToken]
  · intro verify store h hpre
    simp [authorize, extractToken, hpre]
  · intro verify store hd t e hext ht hv
    have hne : (t == "") = false := beq_eq_false_iff_ne.mpr ht
    exact ⟨by simp [authorize, hext, hne, hv], by simp⟩
  · intro verify store hd t claims hext ht hv hf
    have hne : (t == "") = false := beq_eq_false_iff_ne.mpr ht
    simp [authorize, hext, hne, hv, hf]
  · intro verify store hd t claims u hext ht hv hf
    have hne : (t == "") = false := beq_eq_false_iff_ne.mpr ht
    simp [authorize, hext, hne, hv, hf]

/-- Claim C8 witness: concrete requests for each case — no header, a
non-Bearer header, an expired token, a valid token for a vanished user,
and a valid token for Alice. -/
theorem C8_authorize_contract_witness :
    authorize demoVerifyOk demoStore none = AuthOutcome.unauthorizedResp ∧
    authorize demoVerifyOk demoStore (some "Token abc") = AuthOutcome.unauthorizedResp ∧
    (authorize demoVerifyFail demoStore (some "Bearer abc") =
        AuthOutcome.forwardedError "jwt expired" ∧
      AuthOutcome.forwardedError "jwt expired" ≠ AuthOutcome.unauthorizedResp) ∧
    authorize demoVerifyMissing demoStore (some "Bearer abc") = AuthOutcome.unauthorizedResp ∧
    authorize demoVerifyOk demoStore (some "Bearer abc") =
      AuthOutcome.proceed (toPublic demoUser) :=
  ⟨C8_authorize_contract.1 demoVerifyOk demoStore,
   C8_authorize_contract.2.1 demoVerifyOk demoStore "Token abc" (by decide),
   C8_authorize_contract.2.2.1 demoVerifyFail demoStore (some "Bearer abc")
     "abc" "jwt expired" (by decide) (by decide) rfl,
   C8_authorize_contract.2.2.2.1 demoVerifyMissing demoStore (some "Bearer abc")
     "abc" { userId := 9 } (by decide) (by decide) rfl (by decide),
   C8_authorize_contract.2.2.2.2 demoVerifyOk demoStore (some "Bearer abc")
     "abc" { userId := 1 } demoUser (by decide) (by decide) rfl (by decide)⟩

/-- Claim C9: the password regex is evaluated against the stored value,
which is the hasher's output, not the plaintext: any stored string
containing a character outside the class — such as '.' or '/', both
produced by bcrypt — fails the regex, and a registration whose hash
fails it is rejected with the "invalid password" validation failure and
stores nothing, even when the plaintext itself satisfies the regex. -/
theorem C9_password_regex_checks_hash :
    (∀ (s : String) (c : Char), c ∈ s.toList → passwordClassChar c = false →
      passwordRegexMatch s = false)
    ∧ passwordClassChar '.' = false
    ∧ passwordClassChar '/' = false
    ∧ (∀ (hash : String → String) (sign : Nat → String) (nextId : Nat)
        (store : List UserRec) (name email password : String),
        store.find? (fun u => u.email == email) = none →
        passwordRegexMatch password = true →
        passwordRegexMatch (hash password) = false →
        ∃ errs, (signup hash sign nextId store name email password).1 =
            SignupOutcome.forwardedError errs ∧
          "invalid password" ∈ errs ∧
          (signup hash sign nextId store name email password).2 = store) := by
  refine ⟨?_, by decide, by decide, ?_⟩
  · intro s c hc hbad
    simp [passwordRegexMatch]
    intro _ h2
    exact absurd (h2 c hc) (by simp [hbad])
  · intro hash sign nextId store name email password hf hpt hbad
    have hmem : "invalid password" ∈ userErrors
        { id := nextId, name := strTrim name, email := strToLower (strTrim email),
          password := hash password } := by
      simp [userErrors, hbad]
    cases hE : userErrors
        { id := nextId, name := strTrim name, email := strToLower (strTrim email),
          password := hash password } with
    | nil =>
      rw [hE] at hmem
      exact absurd hmem (List.not_mem_nil _)
    | cons a as =>
      refine ⟨a :: as, ?_, ?_, ?_⟩
      · simp [signup, hf, hE]
      · rw [hE] at hmem
        exact hmem
      · simp [signup, hf, hE]

/-- Claim C9 witness: a bcrypt-shaped hash containing '.' fails the
class check, and registering with the valid plaintext "Password1!"
under that hasher is rejected with "invalid password", the store left
unchanged. -/
theorem C9_password_regex_checks_hash_witness :
    ('.' ∈ (demoHashDot "Password1!").toList ∧
      passwordClassChar '.' = false ∧
      passwordRegexMatch (demoHashDot "Password1!") = false) ∧
    passwordRegexMatch "Password1!" = true ∧
    (∃ errs, (signup demoHashDot demoSign 2 demoStore "Test User" "test@example.com"
          "Password1!").1 = SignupOutcome.forwardedError errs ∧
      "invalid password" ∈ errs ∧
      (signup demoHashDot demoSign 2 demoStore "Test User" "test@example.com"
          "Password1!").2 = demoStore) :=
  ⟨⟨by decide, by decide,
    C9_password_regex_checks_hash.1 (demoHashDot "Password1!") '.' (by decide) (by decide)⟩,
   by decide,
   C9_password_regex_checks_hash.2.2.2 demoHashDot demoSign 2 demoStore
     "Test User" "test@example.com" "Password1!" (by decide) (by decide) (by decide)⟩

/-- Claim C10: for every authenticated own-profile request whose user
still exists, the handler re-fetches the user by id without excluding
the password, so the 200 response contains the stored password hash,
even though the guard attached a password-excluded user to the
context. -/
theorem C10_profile_returns_password_hash :
    ∀ (store : List UserRec) (u : UserRec),
      store.find? (fun v => v.id == (toPublic u).id) = some u →
      getUserProfile store (some (toPublic u)) = ProfileOutcome.okProfile u ∧
      ∃ full : UserRec, getUserProfile store (some (toPublic u)) =
          ProfileOutcome.okProfile full ∧ full.password = u.password := by
  intro store u hf
  refine ⟨by simp [getUserProfile, hf], u, by simp [getUserProfile, hf], rfl⟩

/-- Claim C10 witness: Alice's own-profile request — the guard attached
her password-excluded record, yet the 200 body carries her stored
hash. -/
theorem C10_profile_returns_password_hash_witness :
    demoStore.find? (fun v => v.id == (toPublic demoUser).id) = some demoUser ∧
    (getUserProfile demoStore (some (toPublic demoUser)) =
        ProfileOutcome.okProfile demoUser ∧
      ∃ full : UserRec, getUserProfile demoStore (some (toPublic demoUser)) =
          ProfileOutcome.okProfile full ∧ full.password = demoUser.password) :=
  ⟨by decide, C10_profile_returns_password_hash demoStore demoUser (by decide)⟩

end SubApi
